import Mathlib

/-!
Verification development for the WinDoctor event-analysis core.

The definitions below are a shallow embedding of the Rust sources
(`src/hints.rs`, `src/perf.rs`, `src/rules.rs`, `src/device_map.rs`,
`src/event_xml.rs` and the normalizer / risk-grade parts of `src/main.rs`).

Modelling conventions:
* Rust `String`/`&str` are Lean `String`; all string constants in the code are
  ASCII, so byte indices and char indices coincide and Unicode lowercasing
  (`to_lowercase`) is modelled by ASCII lowercasing.
* `u8`/`u32`/`usize` are modelled as `Nat`; numeric parses carry the explicit
  range bound of the machine type (`< 256`, `< 2^32`), and the only saturating
  operations (`saturating_add` in the probability computation) are modelled
  with explicit `min _ 255`.
* `std::collections::HashMap` is modelled as an insertion-ordered association
  list: lookup, overwrite-insert and entry-creation follow the map contract;
  iteration order (which `HashMap` leaves unspecified) is modelled as the
  insertion order, which is one admissible order.
* The external `quick-xml` pull parser used by `event_xml.rs` and
  `parse_event_xml_qx` is modelled by `tokenize`, a pull tokenizer producing
  the event stream (`Start`/`Empty`/`End`/`Text`/error) that `quick-xml`
  with `trim_text(true)` produces on the inputs exercised here; self-closing
  tags yield `Empty` events (not `Start`), as in `quick-xml`.
* The external `chrono` parsers are modelled by `parseRfc3339` / `parseNaive`
  following the grammar the code relies on (RFC 3339 with `T`/`t` separator
  and `Z`/`±HH:MM` offset; naive `%Y-%m-%d %H:%M:%S%.f`).
* The external `regex` crate appears twice: the fixed pattern
  `(?i)PercentPerformanceDegraded\D*(\d+)` is modelled concretely by
  `degradedCapture`; the caller-supplied patterns of declarative rules are
  modelled by an explicit match-oracle parameter `rmatch`.
* `std::env::var` is modelled by an explicit parameter
  `env : String → Option String`, making the environment read of
  `classify_bdf_platform` (and of `generate_hints`, which calls it) visible.
-/

/-! ## Basic ASCII string operations -/

def asciiLowerChar (c : Char) : Char :=
  if 'A' ≤ c ∧ c ≤ 'Z' then Char.ofNat (c.toNat + 32) else c

/-- Rust `str::to_lowercase` (ASCII fragment). -/
def lowerStr (s : String) : String := ⟨s.data.map asciiLowerChar⟩

/-- Rust `str::eq_ignore_ascii_case`. -/
def eqIgnoreAsciiCase (a b : String) : Bool := lowerStr a = lowerStr b

/-- Index of the first occurrence of `pat` in `hay` (Rust `str::find` on ASCII). -/
def findSubIdx (hay pat : List Char) : Option Nat :=
  match hay with
  | [] => if pat.isEmpty then some 0 else none
  | c :: t => if pat.isPrefixOf (c :: t) then some 0 else (findSubIdx t pat).map (· + 1)

/-- Rust `str::contains` for a string pattern. -/
def containsStr (hay pat : String) : Bool := (findSubIdx hay.data pat.data).isSome

def isWsC (c : Char) : Bool :=
  c = ' ' ∨ c = Char.ofNat 9 ∨ c = Char.ofNat 10 ∨ c = Char.ofNat 13

/-- Rust `str::trim` (ASCII whitespace fragment). -/
def trimList (cs : List Char) : List Char :=
  ((cs.dropWhile isWsC).reverse.dropWhile isWsC).reverse

def trimStr (s : String) : String := ⟨trimList s.data⟩

def isDigitC (c : Char) : Bool := '0' ≤ c ∧ c ≤ '9'

def digitsVal (cs : List Char) : Nat :=
  cs.foldl (fun a c => a * 10 + (c.toNat - 48)) 0

/-- Rust `str::parse::<uN>()`: optional leading `+`, then one or more ASCII
digits, failing on anything else and on overflow of the machine range
(`bound` = 2^8 or 2^32). -/
def stripPlus : List Char → List Char
  | '+' :: t => t
  | cs => cs

def parseUInt (bound : Nat) (s : String) : Option Nat :=
  if stripPlus s.data ≠ [] ∧ (stripPlus s.data).all isDigitC
      ∧ digitsVal (stripPlus s.data) < bound
  then some (digitsVal (stripPlus s.data)) else none

/-- Rust `str::split` on a single `char` separator (keeps empty pieces;
the empty string yields one empty piece). -/
def splitOnChar (sep : Char) : List Char → List (List Char)
  | [] => [[]]
  | c :: t =>
    let r := splitOnChar sep t
    if c = sep then [] :: r
    else
      match r with
      | h :: t' => (c :: h) :: t'
      | [] => [[c]]

/-- Lexicographic (ascending) order on strings, the order meant by
"(category, message) ascending". -/
def lexLt : List Char → List Char → Bool
  | [], [] => false
  | [], _ :: _ => true
  | _ :: _, [] => false
  | a :: as, b :: bs => if a < b then true else if b < a then false else lexLt as bs

def strLt (a b : String) : Bool := lexLt a.data b.data

/-! ## Model of the `quick-xml` pull parser (`Reader` with `trim_text(true)`) -/

inductive XmlTok where
  | start (name : String) (attrs : List (String × String))
  | emptyTag (name : String) (attrs : List (String × String))
  | endTag (name : String)
  | text (s : String)
  | other
  | err
deriving DecidableEq

/-- Unescape of an XML attribute value (`quick-xml` `unescape_value`):
the five predefined entities plus numeric character references; any other
`&...` sequence is an error (`None`). -/
def unescEntity (ent : List Char) : Option Char :=
  match ent with
  | ['a', 'm', 'p'] => some '&'
  | ['l', 't'] => some '<'
  | ['g', 't'] => some '>'
  | ['q', 'u', 'o', 't'] => some '"'
  | ['a', 'p', 'o', 's'] => some (Char.ofNat 39)
  | '#' :: ds =>
    if ds ≠ [] ∧ ds.all isDigitC ∧ Nat.isValidChar (digitsVal ds) then
      some (Char.ofNat (digitsVal ds))
    else none
  | _ => none

def unescGo : Nat → List Char → Option (List Char)
  | 0, _ => none
  | _, [] => some []
  | fuel + 1, c :: rest =>
    if c = '&' then
      let ent := rest.takeWhile (· ≠ ';')
      match rest.dropWhile (· ≠ ';') with
      | [] => none
      | _ :: r2 =>
        match unescEntity ent with
        | some ch => (unescGo fuel r2).map (ch :: ·)
        | none => none
    else (unescGo fuel rest).map (c :: ·)

def unescapeVal (s : String) : Option String :=
  (unescGo (s.data.length + 1) s.data).map (⟨·⟩)

def isNameEndC (c : Char) : Bool := isWsC c ∨ c = '/' ∨ c = '>'

/-- Attribute scan inside a tag: returns the raw attribute pairs, whether the
tag is self-closing, and the rest of the input after `>`.  `none` models a
reader error (truncated or malformed tag). -/
def parseAttrs : Nat → List Char → Option (List (String × String) × Bool × List Char)
  | 0, _ => none
  | fuel + 1, cs =>
    match cs.dropWhile isWsC with
    | [] => none
    | '>' :: r => some ([], false, r)
    | '/' :: r =>
      match r with
      | '>' :: r2 => some ([], true, r2)
      | _ => none
    | cs' =>
      let key := cs'.takeWhile (fun c => ¬ (c = '=' ∨ isWsC c ∨ c = '>' ∨ c = '/'))
      match cs'.dropWhile (fun c => ¬ (c = '=' ∨ isWsC c ∨ c = '>' ∨ c = '/')) with
      | '=' :: q :: r2 =>
        if q = '"' ∨ q = Char.ofNat 39 then
          let v := r2.takeWhile (· ≠ q)
          match r2.dropWhile (· ≠ q) with
          | [] => none
          | _ :: r4 =>
            (parseAttrs fuel r4).map (fun x => ((⟨key⟩, ⟨v⟩) :: x.1, x.2.1, x.2.2))
        else none
      | _ => none

def tokGo : Nat → List Char → List XmlTok
  | 0, _ => []
  | fuel + 1, cs =>
    let txt := trimList (cs.takeWhile (· ≠ '<'))
    let emitted := if txt.isEmpty then ([] : List XmlTok) else [XmlTok.text ⟨txt⟩]
    match cs.dropWhile (· ≠ '<') with
    | [] => emitted
    | _ :: rest1 =>
      match rest1 with
      | [] => emitted ++ [XmlTok.err]
      | '/' :: r2 =>
        let nm := r2.takeWhile (· ≠ '>')
        match r2.dropWhile (· ≠ '>') with
        | [] => emitted ++ [XmlTok.err]
        | _ :: r4 => emitted ++ XmlTok.endTag ⟨trimList nm⟩ :: tokGo fuel r4
      | '!' :: r2 =>
        match r2.dropWhile (· ≠ '>') with
        | [] => emitted ++ [XmlTok.err]
        | _ :: r4 => emitted ++ XmlTok.other :: tokGo fuel r4
      | '?' :: r2 =>
        match r2.dropWhile (· ≠ '>') with
        | [] => emitted ++ [XmlTok.err]
        | _ :: r4 => emitted ++ XmlTok.other :: tokGo fuel r4
      | cs1 =>
        let name := cs1.takeWhile (fun c => ¬ isNameEndC c)
        match parseAttrs (cs1.length + 1) (cs1.dropWhile (fun c => ¬ isNameEndC c)) with
        | none => emitted ++ [XmlTok.err]
        | some (attrs, isEmptyT, rest) =>
          let tok := if isEmptyT then XmlTok.emptyTag ⟨name⟩ attrs else XmlTok.start ⟨name⟩ attrs
          emitted ++ tok :: tokGo fuel rest

/-- Event stream of `quick-xml`'s `Reader::from_str` with `trim_text(true)`. -/
def tokenize (s : String) : List XmlTok := tokGo (s.data.length + 1) s.data

/-! ## Model of the `chrono` time parsers used by `parse_system_time` -/

/-- Model of `chrono::DateTime<Utc>`; the analysis never inspects the instant, so it is
modelled by the parsed calendar fields together with the parsed UTC offset in
minutes (conversion between equal instants is not needed). -/
structure UtcTime where
  y : Nat
  mo : Nat
  d : Nat
  h : Nat
  mi : Nat
  s : Nat
  nanos : Nat
  offMin : Int
deriving DecidableEq

def isLeap (y : Nat) : Bool := y % 4 = 0 ∧ (y % 100 ≠ 0 ∨ y % 400 = 0)

def daysInMonth (y mo : Nat) : Nat :=
  if mo = 2 then (if isLeap y then 29 else 28)
  else if mo = 4 ∨ mo = 6 ∨ mo = 9 ∨ mo = 11 then 30
  else 31

def validDate (y mo d : Nat) : Bool :=
  1 ≤ mo ∧ mo ≤ 12 ∧ 1 ≤ d ∧ d ≤ daysInMonth y mo

def readFixed (n : Nat) (cs : List Char) : Option (Nat × List Char) :=
  let ds := cs.take n
  if ds.length = n ∧ ds.all isDigitC then some (digitsVal ds, cs.drop n) else none

def expectC (c : Char) : List Char → Option (List Char)
  | [] => none
  | x :: t => if x = c then some t else none

/-- Optional fraction `.d{1,9}`; returns nanoseconds and the rest. -/
def readFrac (cs : List Char) : Option (Nat × List Char) :=
  match cs with
  | '.' :: r =>
    let ds := r.takeWhile isDigitC
    if 1 ≤ ds.length ∧ ds.length ≤ 9 then
      some (digitsVal ds * 10 ^ (9 - ds.length), r.dropWhile isDigitC)
    else none
  | cs => some (0, cs)

/-- Offset `Z`/`z` or `±HH:MM`, in minutes. -/
def readOffset (cs : List Char) : Option (Int × List Char) :=
  match cs with
  | 'Z' :: r => some (0, r)
  | 'z' :: r => some (0, r)
  | '+' :: r =>
    (readFixed 2 r).bind fun (hh, r1) =>
    (expectC ':' r1).bind fun r2 =>
    (readFixed 2 r2).bind fun (mm, r3) =>
    if hh ≤ 23 ∧ mm ≤ 59 then some ((hh * 60 + mm : Nat), r3) else none
  | '-' :: r =>
    (readFixed 2 r).bind fun (hh, r1) =>
    (expectC ':' r1).bind fun r2 =>
    (readFixed 2 r2).bind fun (mm, r3) =>
    if hh ≤ 23 ∧ mm ≤ 59 then some (-((hh * 60 + mm : Nat) : Int), r3) else none
  | _ => none

def mkTimeChecked (y mo d h mi s nanos : Nat) (off : Int) : Option UtcTime :=
  if validDate y mo d ∧ h ≤ 23 ∧ mi ≤ 59 ∧ s ≤ 60 then
    some ⟨y, mo, d, h, mi, s, nanos, off⟩
  else none

/-- Model of `chrono::DateTime::parse_from_rfc3339`. -/
def parseRfc3339 (str : String) : Option UtcTime :=
  (readFixed 4 str.data).bind fun (y, r1) =>
  (expectC '-' r1).bind fun r2 =>
  (readFixed 2 r2).bind fun (mo, r3) =>
  (expectC '-' r3).bind fun r4 =>
  (readFixed 2 r4).bind fun (d, r5) =>
  (match r5 with
    | c :: t => if c = 'T' ∨ c = 't' then some t else none
    | [] => none).bind fun r6 =>
  (readFixed 2 r6).bind fun (h, r7) =>
  (expectC ':' r7).bind fun r8 =>
  (readFixed 2 r8).bind fun (mi, r9) =>
  (expectC ':' r9).bind fun r10 =>
  (readFixed 2 r10).bind fun (s, r11) =>
  (readFrac r11).bind fun (nanos, r12) =>
  (readOffset r12).bind fun (off, r13) =>
  if r13 = [] then mkTimeChecked y mo d h mi s nanos off else none

/-- Model of `chrono::NaiveDateTime::parse_from_str` with `"%Y-%m-%d %H:%M:%S%.f"`,
assumed UTC by the caller. -/
def parseNaive (str : String) : Option UtcTime :=
  (readFixed 4 str.data).bind fun (y, r1) =>
  (expectC '-' r1).bind fun r2 =>
  (readFixed 2 r2).bind fun (mo, r3) =>
  (expectC '-' r3).bind fun r4 =>
  (readFixed 2 r4).bind fun (d, r5) =>
  (expectC ' ' r5).bind fun r6 =>
  (readFixed 2 r6).bind fun (h, r7) =>
  (expectC ':' r7).bind fun r8 =>
  (readFixed 2 r8).bind fun (mi, r9) =>
  (expectC ':' r9).bind fun r10 =>
  (readFixed 2 r10).bind fun (s, r11) =>
  (readFrac r11).bind fun (nanos, r12) =>
  if r12 = [] then mkTimeChecked y mo d h mi s nanos 0 else none

/-! ## `main.rs`: `parse_system_time`, `extract_between`, `extract_attr` -/

/-- From `main.rs`, `parse_system_time`: RFC 3339 first, then the space-separated
variant coerced to UTC (replace spaces by `T`, append `Z` unless the string
already ends in `Z` or contains `+`), then the naive pattern assumed UTC. -/
def parse_system_time (s : String) : Option UtcTime :=
  match parseRfc3339 s with
  | some dt => some dt
  | none =>
    let alt0 : String := ⟨s.data.map fun c => if c = ' ' then 'T' else c⟩
    let alt := if alt0.data.getLast? = some 'Z' ∨ alt0.data.contains '+' then alt0
               else alt0 ++ "Z"
    match parseRfc3339 alt with
    | some dt => some dt
    | none => parseNaive s

/-- From `main.rs`, `extract_between`. -/
def extract_between (hay start en : String) : Option String :=
  (findSubIdx hay.data start.data).bind fun s =>
  let afterStart := hay.data.drop (s + start.data.length)
  (findSubIdx afterStart en.data).map fun e => (⟨afterStart.take e⟩ : String)

/-- From `main.rs`, `extract_attr`. -/
def extract_attr (xml tag attr : String) : Option String :=
  let opn := "<" ++ tag ++ " "
  (findSubIdx xml.data opn.data).bind fun s =>
  let rest := xml.data.drop (s + opn.data.length)
  let key := attr ++ "=\""
  (findSubIdx rest key.data).bind fun ks =>
  let after := rest.drop (ks + key.data.length)
  (findSubIdx after ['"']).map fun ke => (⟨after.take ke⟩ : String)

/-! ## `event_xml.rs`: payload key/value extraction -/

/-- Model of `HashMap::insert` on the association-list model (overwrite or append). -/
def alInsert (m : List (String × String)) (k v : String) : List (String × String) :=
  if k ∈ m.map Prod.fst then m.map (fun kv => if kv.1 = k then (k, v) else kv)
  else m ++ [(k, v)]

/-- Model of `HashMap::get` on the association-list model. -/
def alGet (m : List (String × String)) (k : String) : Option String :=
  (m.find? (fun kv => kv.1 = k)).map Prod.snd

def edpGo : List XmlTok → Bool → Option String → List (String × String) →
    List (String × String)
  | [], _, _, out => out
  | t :: ts, inED, cur, out =>
    match t with
    | .err => out
    | .start name attrs =>
      if name = "EventData" then edpGo ts true cur out
      else if inED ∧ name = "Data" then
        let cur' := attrs.foldl
          (fun c kv => if kv.1 = "Name" then
              (match unescapeVal kv.2 with | some v => some v | none => c)
            else c) none
        edpGo ts inED cur' out
      else edpGo ts inED cur out
    | .endTag name =>
      edpGo ts (if name = "EventData" then false else inED)
        (if name = "Data" then none else cur) out
    | .text s =>
      match inED, cur with
      | true, some n =>
        let v := trimStr s
        if v = "" then edpGo ts inED cur out else edpGo ts inED cur (alInsert out n v)
      | _, _ => edpGo ts inED cur out
    | _ => edpGo ts inED cur out

/-- From `event_xml.rs`, `event_data_pairs`: strict structured walk. -/
def event_data_pairs (xml : String) : List (String × String) :=
  edpGo (tokenize xml) false none []

def edpfGo : Nat → List Char → List (String × String) → List (String × String)
  | 0, _, res => res
  | fuel + 1, rest0, res =>
    match findSubIdx rest0 "<Data ".data with
    | none => res
    | some i =>
      let rest := rest0.drop (i + 6)
      match findSubIdx rest "Name=\"".data with
      | none => res
      | some ns =>
        let after := rest.drop (ns + 6)
        match findSubIdx after ['"'] with
        | none => res
        | some ne =>
          let name := after.take ne
          match findSubIdx (after.drop ne) ['>'] with
          | none => res
          | some gt =>
            let valPart := after.drop (ne + gt + 1)
            match findSubIdx valPart "</Data>".data with
            | none => res
            | some ve =>
              edpfGo fuel (valPart.drop (ve + 7)) (alInsert res ⟨name⟩ ⟨valPart.take ve⟩)

/-- From `event_xml.rs`, `event_data_pairs_fallback`: tolerant literal scan. -/
def event_data_pairs_fallback (xml : String) : List (String × String) :=
  edpfGo (xml.data.length + 1) xml.data []

/-- From `event_xml.rs`, `event_data_pairs_or_fallback`. -/
def event_data_pairs_or_fallback (xml : String) : List (String × String) :=
  let m := event_data_pairs xml
  if m.isEmpty then event_data_pairs_fallback xml else m

/-! ## `device_map.rs` -/

/-- From `device_map.rs`, `classify_vendor_hex`: fixed 18-entry vendor table. -/
def classify_vendor_hex (vendor_hex : String) : Option String :=
  match vendor_hex with
  | "10de" => some "NVIDIA GPU"
  | "1002" => some "AMD GPU"
  | "8086" => some "Intel controller/device"
  | "144d" => some "Samsung NVMe"
  | "1bb1" => some "Western Digital NVMe"
  | "1987" => some "Phison NVMe"
  | "1c5c" => some "SK hynix NVMe"
  | "1344" => some "Micron NVMe"
  | "10ec" => some "Realtek controller/device"
  | "14e4" => some "Broadcom controller/device"
  | "1b21" => some "ASMedia controller/device"
  | "197b" => some "JMicron controller/device"
  | "126f" => some "Silicon Motion NVMe"
  | "15b7" => some "SanDisk NVMe"
  | "1e0f" => some "KIOXIA NVMe"
  | "1e49" => some "Solidigm NVMe"
  | "1d97" => some "ADATA NVMe"
  | "1022" => some "AMD controller/device"
  | _ => none

def isHexDigitC (c : Char) : Bool :=
  isDigitC c ∨ ('a' ≤ c ∧ c ≤ 'f') ∨ ('A' ≤ c ∧ c ≤ 'F')

def take_hex4 (s : List Char) (start : Nat) : Option String :=
  if s.length < start + 4 then none
  else
    let sub := (s.drop start).take 4
    if sub.all isHexDigitC then some ⟨sub⟩ else none

/-- From `device_map.rs`, `parse_pci_ven_dev`. -/
def parse_pci_ven_dev (id_lower : String) : Option String × Option String :=
  let ven := match findSubIdx id_lower.data "ven_".data with
    | some p => take_hex4 id_lower.data (p + 4)
    | none => none
  let dev := match findSubIdx id_lower.data "dev_".data with
    | some p => take_hex4 id_lower.data (p + 4)
    | none => none
  (ven, dev)

def strStartsWith (s pre : String) : Bool := pre.data.isPrefixOf s.data

/-- From `device_map.rs`, `classify_instance_id`. -/
def classify_instance_id (id : String) : Option String :=
  let id_lower := lowerStr id
  if strStartsWith id_lower "nvme\\" then some "NVMe drive"
  else if strStartsWith id_lower "scsi\\disk" then some "SATA/SAS disk"
  else if strStartsWith id_lower "usb\\vid_" then some "USB device"
  else if strStartsWith id_lower "acpi\\pnp0c0b" then some "ACPI fan"
  else if strStartsWith id_lower "acpi\\pnp0c0a" then some "ACPI thermal zone"
  else
    match parse_pci_ven_dev id_lower with
    | (some vendor, dev_opt) =>
      let base := (classify_vendor_hex vendor).getD "PCI device"
      match dev_opt with
      | some dev => some (base ++ " device 0x" ++ dev)
      | none => some base
    | (none, _) => none

/-- From `device_map.rs`, `classify_bdf`: ordered numeric heuristic. -/
def classify_bdf (bus dev func : Option String) : Option String :=
  let b := bus.bind (parseUInt 4294967296)
  let d := dev.bind (parseUInt 4294967296)
  let f := func.bind (parseUInt 4294967296)
  match b, d with
  | some b, some d =>
    if b = 1 ∧ d = 0 then some "Likely discrete GPU (PEG root path)"
    else if 1 ≤ b ∧ d ≤ 3 ∧ f = some 0 then some "Device on CPU PCIe lanes (GPU/NVMe)"
    else if 16 ≤ d ∧ d ≤ 31 then some "PCIe root/downstream port"
    else if f = some 0 ∧ d ≤ 7 then some "Onboard controller/device"
    else none
  | _, _ => none

/-- From `device_map.rs`, `smart_hint_from_text`. -/
def smart_hint_from_text (text : String) : Option (String × String) :=
  let t := lowerStr text
  if containsStr t "smart" ∧
      (containsStr t "pred fail" ∨ containsStr t "failed" ∨ containsStr t "bad") then
    some ("high", "SMART indicates predicted disk failure")
  else if containsStr t "reallocated" ∨ containsStr t "pending sector" ∨
      containsStr t "uncorrectable" then
    some ("medium", "SMART attributes suggest media degradation")
  else if containsStr t "temperature" ∧
      (containsStr t "high" ∨ containsStr t "overheat" ∨ containsStr t "critical") then
    some ("medium", "SMART reports high temperature")
  else none

/-- Model of `std::env::var(A).or_else(|_| std::env::var(B))` in `classify_bdf_platform`,
with the process environment as an explicit parameter. -/
def envSpec (env : String → Option String) : Option String :=
  match env "WINDOCTOR_BDF_HINTS" with
  | some s => some s
  | none => env "WINREPORT_BDF_HINTS"

def findOverrideGo (bus dev func : Option String) : List (List Char) → Option String
  | [] => none
  | entry :: rest =>
    match findSubIdx entry ['='] with
    | some eq =>
      let key := entry.take eq
      let val : String := ⟨entry.drop (eq + 1)⟩
      match (splitOnChar ':' key).map (fun p => (⟨p⟩ : String)) with
      | [p0, p1, p2] =>
        if bus = some p0 ∧ dev = some p1 ∧ func = some p2 then some val
        else findOverrideGo bus dev func rest
      | _ => findOverrideGo bus dev func rest
    | none => findOverrideGo bus dev func rest

/-- The `for entry in spec.split(';')` loop of `classify_bdf_platform`. -/
def findOverride (spec : String) (bus dev func : Option String) : Option String :=
  findOverrideGo bus dev func (splitOnChar ';' spec.data)

/-- From `device_map.rs`, `classify_bdf_platform`: reads the override table from the
process environment (modelled by the explicit `env` parameter), and falls back
to the `classify_bdf` heuristic when no entry matches. -/
def classify_bdf_platform (env : String → Option String)
    (bus dev func : Option String) : Option String :=
  match envSpec env with
  | some spec =>
    match findOverride spec bus dev func with
    | some v => some v
    | none => classify_bdf bus dev func
  | none => classify_bdf bus dev func

/-! ## `main.rs`: `EventItem` and the Normalizer -/

structure EventItem where
  time : UtcTime
  level : Nat
  channel : String
  provider : String
  event_id : Nat
  content : String
  raw_xml : Option String
deriving DecidableEq

structure QxState where
  time? : Option UtcTime
  level? : Option Nat
  provider : String
  eventId? : Option Nat
  channelS : String
  cur : String
deriving DecidableEq

/-- The `TimeCreated` attribute walk of `parse_event_xml_qx`: a failing
`unescape_value` aborts the whole parse (the `?` in the source). -/
def qxTimeAttrs : QxState → List (String × String) → Option QxState
  | st, [] => some st
  | st, (k, v) :: rest =>
    if k = "SystemTime" then
      match unescapeVal v with
      | none => none
      | some v' =>
        qxTimeAttrs
          (match parse_system_time v' with
           | some dt => { st with time? := some dt }
           | none => st) rest
    else qxTimeAttrs st rest

/-- The `Provider` attribute walk of `parse_event_xml_qx`. -/
def qxProviderAttrs : QxState → List (String × String) → Option QxState
  | st, [] => some st
  | st, (k, v) :: rest =>
    if k = "Name" then
      match unescapeVal v with
      | none => none
      | some v' => qxProviderAttrs { st with provider := v' } rest
    else qxProviderAttrs st rest

/-- The `Text` arm of the `parse_event_xml_qx` loop: bind the text to the
currently open field (`Level` as `u8`, `EventID` trimmed as `u32`,
`Channel` verbatim). -/
def qxTextStep (st : QxState) (s : String) : QxState :=
  if st.cur = "Level" then
    match parseUInt 256 s with
    | some n => { st with level? := some n }
    | none => st
  else if st.cur = "EventID" then
    match parseUInt 4294967296 (trimStr s) with
    | some n => { st with eventId? := some n }
    | none => st
  else if st.cur = "Channel" then { st with channelS := s }
  else st

/-- The event loop of `parse_event_xml_qx` (lines 884-914 of `main.rs`):
only `Start` and `Text` events are handled, a reader error returns `None`. -/
def qxLoop : List XmlTok → QxState → Option QxState
  | [], st => some st
  | t :: ts, st =>
    match t with
    | .err => none
    | .start name attrs =>
      if name = "TimeCreated" then
        match qxTimeAttrs { st with cur := name } attrs with
        | none => none
        | some st2 => qxLoop ts st2
      else if name = "Provider" then
        match qxProviderAttrs { st with cur := name } attrs with
        | none => none
        | some st2 => qxLoop ts st2
      else qxLoop ts { st with cur := name }
    | .text s => qxLoop ts (qxTextStep st s)
    | _ => qxLoop ts st

/-- From `main.rs`, `parse_event_xml_qx`. -/
def parse_event_xml_qx (xml channel : String) : Option EventItem :=
  match qxLoop (tokenize xml) ⟨none, none, "", none, "", ""⟩ with
  | none => none
  | some st =>
    match st.time? with
    | none => none
    | some time =>
      some { time := time,
             level := st.level?.getD 0,
             event_id := st.eventId?.getD 0,
             provider := st.provider,
             content := (extract_between xml "<EventData>" "</EventData>").getD xml,
             channel := if st.channelS = "" then channel else st.channelS,
             raw_xml := none }

/-- The part of an `EventID` text after the last `>` (the
`if let Some(idx) = s.rfind('>') { &s[idx+1..] }` of `parse_event_xml`). -/
def afterLastGt (s : String) : String :=
  if '>' ∈ s.data then ⟨((s.data.reverse.takeWhile (· ≠ '>')).reverse)⟩ else s

def fallbackLevel (xml : String) : Nat :=
  ((extract_between xml "<Level>" "</Level>").bind (parseUInt 256)).getD 0

def fallbackEventId (xml : String) : Nat :=
  ((extract_between xml "<EventID" "</EventID>").bind
    (fun s => parseUInt 4294967296 (trimStr (afterLastGt s)))).getD 0

/-- The `let t = extract_attr(..).and_then(parse_system_time)
.or_else(|| extract_between(..).and_then(parse_system_time))` of
`parse_event_xml`: the fallback creation-time search. -/
def fallbackTime (xml : String) : Option UtcTime :=
  match (extract_attr xml "TimeCreated" "SystemTime").bind parse_system_time with
  | some dt => some dt
  | none => (extract_between xml "<TimeCreated SystemTime=\"" "\"").bind parse_system_time

/-- From `main.rs`, `parse_event_xml`: the strict `quick-xml` pass first, then the
literal-scanning fallback, which fails only when no creation time parses. -/
def parse_event_xml (xml channel : String) : Option EventItem :=
  match parse_event_xml_qx xml channel with
  | some item => some item
  | none =>
    match fallbackTime xml with
    | none => none
    | some time =>
      some { time := time,
             level := fallbackLevel xml,
             provider := (extract_attr xml "Provider" "Name").getD "",
             event_id := fallbackEventId xml,
             content := (extract_between xml "<EventData>" "</EventData>").getD xml,
             channel := (extract_between xml "<Channel>" "</Channel>").getD channel,
             raw_xml := none }

/-! ## `hints.rs`: the correlation engine -/

structure NoviceHint where
  category : String
  severity : String
  message : String
  evidence : List String
  count : Nat
  probability : Nat
deriving DecidableEq

/-- One `push_hint(&mut acc, category, severity, message, evidence)` call. -/
structure Push where
  category : String
  severity : String
  message : String
  evidence : Option String
deriving DecidableEq

abbrev HKey := String × String × String

def hintKey (h : NoviceHint) : HKey := (h.category, h.severity, h.message)

def pushKey (p : Push) : HKey := (p.category, p.severity, p.message)

/-- The mutation `push_hint` performs on the entry of its key:
`count += 1`, then append the evidence if present, non-empty and
fewer than 3 strings are stored. -/
def applyPush (h : NoviceHint) (p : Push) : NoviceHint :=
  let h1 := { h with count := h.count + 1 }
  match p.evidence with
  | some ev =>
    if h1.evidence.length < 3 ∧ ev ≠ "" then { h1 with evidence := h1.evidence ++ [ev] }
    else h1
  | none => h1

/-- The `or_insert` default of `push_hint`. -/
def freshHint (p : Push) : NoviceHint :=
  ⟨p.category, p.severity, p.message, [], 0, 0⟩

/-- From `hints.rs`, `push_hint` on the association-list model of the accumulator
map (entry lookup by `(category, severity, message)`; creation appends). -/
def push_hint (acc : List NoviceHint) (p : Push) : List NoviceHint :=
  if pushKey p ∈ acc.map hintKey then
    acc.map fun h => if hintKey h = pushKey p then applyPush h p else h
  else acc ++ [applyPush (freshHint p) p]

def mget (m : List (String × String)) (k : String) : String := (alGet m k).getD ""

def mget2 (m : List (String × String)) (k1 k2 : String) : String :=
  (match alGet m k1 with
   | some v => some v
   | none => alGet m k2).getD ""

def optNE (s : String) : Option String := if s = "" then none else some s

/-- From `hints.rs`, `extract_data_pairs`. -/
def extract_data_pairs (xml : String) : List (String × String) :=
  event_data_pairs_or_fallback xml

/-- The provider-keyed `match e.provider.as_str()` arm of `generate_hints`,
as the ordered list of `push_hint` calls it makes for one event. -/
def providerPushes (env : String → Option String) (e : EventItem)
    (m : List (String × String)) (cl : String) : List Push :=
  match e.provider with
  | "Application Error" =>
    if e.event_id = 1000 then
      let app := mget m "FaultingApplicationName"
      let module := mget m "FaultingModuleName"
      let ev := if app ≠ "" then app else module
      [⟨"Application", "high", "Application crash detected", optNE ev⟩]
    else []
  | "Microsoft-Windows-Kernel-Acpi" | "Microsoft-Windows-ACPI" | "ACPI"
  | "Microsoft-Windows-Thermal" =>
    let inst := mget m "DeviceInstanceId"
    let fan : List Push :=
      if containsStr cl "fan" then
        if containsStr cl "fail" ∨ containsStr cl "stalled" ∨
            containsStr cl "not detected" then
          let msg := "CPU/Chassis fan failure detected"
          let msg := match (if inst = "" then none else classify_instance_id inst) with
            | some cls => msg ++ " [" ++ cls ++ "]"
            | none => msg
          [⟨"Cooling", "high", msg, optNE inst⟩]
        else if containsStr cl "rpm" ∨ containsStr cl "tachometer" then
          [⟨"Cooling", "medium", "Fan speed low or unstable", optNE inst⟩]
        else
          [⟨"Cooling", "medium", "Fan-related event reported", optNE inst⟩]
      else []
    let thermal : List Push :=
      if containsStr cl "thermal zone" ∨ containsStr cl "temperature" ∨
          containsStr cl "overheat" ∨ containsStr cl "critical" then
        let temp := mget m "CurrentTemperature"
        let ev := if temp = "" then inst else temp
        [⟨"Thermal", "medium", "Thermal zone or sensor reports high temperature", optNE ev⟩]
      else []
    fan ++ thermal
  | "Microsoft-Windows-DNS-Client" =>
    if e.event_id = 1014 ∨ containsStr cl "name resolution" ∨ containsStr cl "dns" then
      [⟨"Network", "medium", "DNS name resolution failure", optNE (mget m "QueryName")⟩]
    else []
  | "Microsoft-Windows-Time-Service" | "W32Time" =>
    if containsStr cl "failed" ∨ containsStr cl "no response" ∨
        containsStr cl "synchronize" then
      [⟨"System", "medium", "System time synchronization failed", optNE (mget m "SourceType")⟩]
    else []
  | "Microsoft-Windows-GroupPolicy" =>
    if containsStr cl "failed" ∨ containsStr cl "could not apply" ∨
        containsStr cl "processing aborted" then
      let dc := mget m "DCName"
      let gpo := mget m "GPOID"
      let evidence := if gpo ≠ "" then gpo else dc
      [⟨"Policy", "medium", "Group Policy processing failure", optNE evidence⟩]
    else []
  | "Microsoft-Windows-WHEA-Logger" =>
    let byId : List Push :=
      match e.event_id with
      | 18 =>
        let src := mget m "ErrorSource"
        let apic := mget2 m "ApicId" "ProcessorAPICID"
        let ev := if apic = "" then src else src ++ " APIC " ++ apic
        [⟨"Hardware", "high", "Uncorrected hardware error detected (machine check)", some ev⟩]
      | 17 =>
        let comp := mget m "Component"
        let dev := mget m "DeviceId"
        let ev := if comp = "" then dev else comp
        [⟨"Hardware", "medium", "Corrected hardware error reported", some ev⟩]
      | 19 => [⟨"Hardware", "medium", "Hardware error reported by WHEA", some (mget m "ErrorSource")⟩]
      | 20 => [⟨"Hardware", "medium", "Hardware error reported by WHEA", some (mget m "ErrorSource")⟩]
      | _ => []
    let bus := alGet m "Bus"
    let dev := alGet m "Device"
    let func := alGet m "Function"
    let byBdf : List Push :=
      match classify_bdf_platform env bus dev func with
      | some cls =>
        let bdf := "B:" ++ bus.getD "" ++ " D:" ++ dev.getD "" ++ " F:" ++ func.getD ""
        [⟨"Hardware", "medium", cls ++ " (" ++ bdf ++ " )", none⟩]
      | none => []
    byId ++ byBdf
  | "Service Control Manager" | "Microsoft-Windows-Services" =>
    if containsStr cl "failed to start" ∨ containsStr cl "start pending timed out" ∨
        containsStr cl "terminated unexpectedly" then
      let svc := mget2 m "ServiceName" "param1"
      let msg := if svc = "" then "Service start/termination failure"
                 else "Service failure: " ++ svc
      let sev := if containsStr cl "failed" ∨ containsStr cl "terminated" then "high"
                 else "medium"
      [⟨"Services", sev, msg, optNE svc⟩]
    else []
  | "Disk" =>
    match e.event_id with
    | 7 => [⟨"Storage", "high", "Bad block detected on disk", some (mget2 m "DeviceName" "param1")⟩]
    | 11 => [⟨"Storage", "high", "Disk or controller error", some (mget2 m "DeviceName" "param1")⟩]
    | 51 => [⟨"Storage", "medium", "Paging I/O error indicates unstable storage path", none⟩]
    | 157 => [⟨"Storage", "high", "Disk was surprise removed (connection/port)",
        some (mget2 m "DeviceName" "param1")⟩]
    | _ => []
  | "Microsoft-Windows-Ntfs" =>
    match e.event_id with
    | 55 => [⟨"Storage", "high", "File system corruption detected (NTFS)", none⟩]
    | 57 => [⟨"Storage", "high", "Delayed write failed", none⟩]
    | 140 => [⟨"Storage", "high", "Failed to flush data to transaction log (NTFS)", none⟩]
    | _ => []
  | "Storport" =>
    match e.event_id with
    | 129 => [⟨"Storage", "medium", "Reset to device implies storage connectivity issue", none⟩]
    | 153 => [⟨"Storage", "medium", "I/O operation retried by Storport", none⟩]
    | _ => []
  | "volmgr" =>
    if containsStr cl "failed to flush data to the transaction log" then
      [⟨"Storage", "high", "Volume manager flush failure – potential corruption", none⟩]
    else []
  | "volsnap" =>
    if containsStr cl "shadow copies of volume" ∧ containsStr cl "were aborted" then
      [⟨"Storage", "medium", "Shadow copies aborted – may indicate underlying disk issues", none⟩]
    else []
  | "Microsoft-Windows-DiskDiagnostic" | "Microsoft-Windows-DiskDiagnosticDataCollector" =>
    let reason := mget m "Reason"
    let degraded := mget m "PercentPerformanceDegraded"
    let ev := if reason ≠ "" then reason else degraded
    [⟨"Storage", "high", "Windows detected disk reliability issue", optNE ev⟩]
  | "Microsoft-Windows-Kernel-PnP" =>
    if e.event_id = 219 then
      let dev := mget m "DeviceInstanceId"
      let msg := "Driver failed to load for a device (Kernel-PnP 219)"
      let msg := match classify_instance_id dev with
        | some cls => msg ++ " [" ++ cls ++ "]"
        | none => msg
      [⟨"Peripheral", "medium", msg, optNE dev⟩]
    else []
  | "Microsoft-Windows-UserPnp" =>
    if e.event_id = 2003 ∨ containsStr cl "driver install failed" ∨
        containsStr cl "device install failed" then
      let dev := mget2 m "DeviceInstanceID" "DeviceInstanceId"
      let msg := "Device installation failed"
      let msg := match (if dev = "" then none else classify_instance_id dev) with
        | some cls => msg ++ " [" ++ cls ++ "]"
        | none => msg
      [⟨"Peripheral", "medium", msg, optNE dev⟩]
    else []
  | "Microsoft-Windows-Kernel-Power" =>
    if e.event_id = 41 then
      [⟨"Power", "high", "Unexpected shutdown or power loss detected", none⟩]
    else []
  | "Microsoft-Windows-EventLog" | "EventLog" =>
    if e.event_id = 6008 then
      [⟨"Power", "high", "Previous system shutdown was unexpected", none⟩]
    else []
  | "Microsoft-Windows-Kernel-Processor-Power" =>
    if e.event_id = 37 then
      [⟨"Thermal", "medium", "CPU frequency limited by firmware (thermal/power)", none⟩]
    else []
  | "Display" =>
    if e.event_id = 4101 then
      [⟨"GPU", "medium", "Display driver stopped responding and recovered", none⟩]
    else []
  | "Microsoft-Windows-DxgKrnl" =>
    if e.event_id = 2 ∨ e.event_id = 3 then
      [⟨"GPU", "medium", "Video scheduler or graphics kernel reported a fault", none⟩]
    else []
  | "nvlddmkm" | "amdkmdag" =>
    [⟨"GPU", "medium", "GPU driver timeout or reset detected", none⟩]
  | "USBHUB" | "USBHUB3" | "USBXHCI" | "usbhub" | "usbstor" | "USB" =>
    if containsStr cl "enumeration failed" ∨ containsStr cl "descriptor request failed" ∨
        containsStr cl "port reset failed" then
      [⟨"Peripheral", "medium", "USB device enumeration or port failure", none⟩]
    else []
  | "cdrom" =>
    if e.event_id = 11 ∨ containsStr cl "controller error" then
      [⟨"Storage", "medium", "CD/DVD device or controller error", none⟩]
    else []
  | "Netlogon" | "NETLOGON" =>
    if containsStr cl "domain controller" ∨ containsStr cl "logon failure" ∨
        containsStr cl "could not establish a secure connection" then
      [⟨"Network", "medium", "Domain logon or secure channel issue",
        optNE (mget2 m "DnsHostName" "DCName")⟩]
    else []
  | "Microsoft-Windows-MemoryDiagnostics-Results" =>
    let errs := mget2 m "TestResult" "FailureCount"
    if errs ≠ "" ∧ errs ≠ "0" then
      [⟨"Memory", "high", "Memory diagnostics reported errors", some errs⟩]
    else []
  | _ => []

/-- The provider-independent cross-cutting checks of `generate_hints`
(lines 242-281 of `hints.rs`), in source order. -/
def crossPushes (e : EventItem) (cl : String) : List Push :=
  (if containsStr cl "access denied" ∨ containsStr cl "permission" ∨
      containsStr cl "privilege" then
    [⟨"Permissions", "medium", "Access denied or insufficient permissions detected", none⟩]
  else []) ++
  (if e.provider = "DistributedCOM" ∧ containsStr cl "do not grant" ∧
      containsStr cl "permission settings" then
    [⟨"Permissions", "medium", "DCOM permission misconfiguration", none⟩]
  else []) ++
  (if containsStr cl "dns" ∨ containsStr cl "name resolution" ∨ containsStr cl "tcp" ∨
      containsStr cl "connection timed out" ∨ containsStr cl "reset by peer" ∨
      containsStr cl "dhcp" ∨ containsStr cl "media disconnected" then
    [⟨"Network", "medium", "Network connectivity or name resolution issue", none⟩]
  else []) ++
  (if containsStr cl "windows update" ∨ containsStr cl "wuau" ∨
      containsStr cl "failed to install update" ∨ containsStr cl "download error" then
    [⟨"Updates", "medium", "Windows Update reported a failure", none⟩]
  else []) ++
  (if containsStr cl "low disk space" ∨ containsStr cl "not enough space" ∨
      containsStr cl "quota exceeded" then
    [⟨"Storage", "medium", "Low disk space or quota exceeded", none⟩]
  else []) ++
  (if containsStr cl "bugcheck" ∨ containsStr cl "stop code" then
    [⟨"Power", "high", "System crash (BugCheck) indicated", none⟩]
  else []) ++
  (if (containsStr (lowerStr e.provider) "iastor" ∨
       containsStr (lowerStr e.provider) "storahci" ∨
       containsStr (lowerStr e.provider) "nvme") ∧
      (containsStr cl "reset to device" ∨ containsStr cl "i/o was retried") then
    [⟨"Storage", "medium", "Storage controller reported resets/retries (path instability)", none⟩]
  else []) ++
  (if containsStr (lowerStr e.provider) "cdrom" ∧
      (e.event_id = 11 ∨ containsStr cl "controller error" ∨
       containsStr cl "device not ready") then
    [⟨"Storage", "medium", "Optical drive or controller error", none⟩]
  else []) ++
  (if e.provider = "Microsoft-Windows-Diagnostics-Performance" then
    match e.event_id with
    | 100 => [⟨"Performance", "medium", "Slow startup detected (Diagnostics-Performance 100)", none⟩]
    | 200 => [⟨"Performance", "medium", "Slow logon detected (Diagnostics-Performance 200)", none⟩]
    | 400 => [⟨"Performance", "medium", "Slow resume from standby detected (Diagnostics-Performance 400)", none⟩]
    | _ => []
  else []) ++
  (if containsStr cl "retry" ∨ containsStr cl "reset" ∨ containsStr cl "corrupt" ∨
      containsStr cl "degraded" ∨ containsStr cl "unexpected" then
    [⟨"General", "medium", "System reported error patterns indicating instability", none⟩]
  else []) ++
  (match smart_hint_from_text cl with
   | some (sev, msg) => [⟨"Storage", sev, msg, none⟩]
   | none => [])

/-- All `push_hint` calls the per-event body of `generate_hints` makes for
one event, in source order. -/
def eventPushes (env : String → Option String) (e : EventItem) : List Push :=
  let m := extract_data_pairs e.content
  let cl := lowerStr e.content
  providerPushes env e m cl ++ crossPushes e cl

/-- The full sequence of `push_hint` calls of one correlation pass. -/
def hintTrace (env : String → Option String) (events : List EventItem) : List Push :=
  events.flatMap (eventPushes env)

/-- The probability finalization loop of `generate_hints` (u8 arithmetic:
`saturating_add` then `clamp(5, 95)`). -/
def finalizeProb (h : NoviceHint) : NoviceHint :=
  let base := if h.severity = "high" then 75 else if h.severity = "medium" then 50 else 25
  let bump := if 5 ≤ h.count then 15 else if 3 ≤ h.count then 10
              else if 2 ≤ h.count then 5 else 0
  let evb := if h.evidence.isEmpty then 0 else 5
  let p := min (min (base + bump) 255 + evb) 255
  { h with probability := min (max p 5) 95 }

/-- Model of `out.sort_by(|a, b| b.count.cmp(&a.count))`: Rust's `sort_by` is a stable
sort, so it is the stable sort by count descending. -/
def sortCountDesc (l : List NoviceHint) : List NoviceHint :=
  l.insertionSort fun a b => b.count ≤ a.count

def hasVolsnapAbort (events : List EventItem) : Bool :=
  events.any fun e =>
    eqIgnoreAsciiCase e.provider "volsnap" ∧ containsStr (lowerStr e.content) "aborted"

def hasNtfs55 (events : List EventItem) : Bool :=
  events.any fun e =>
    eqIgnoreAsciiCase e.provider "Microsoft-Windows-Ntfs" ∧ e.event_id = 55

/-- From `hints.rs`, `generate_hints`.  The returned vector `out` is collected from
the accumulator map (`acc.into_values()`) and finalized *before* the
cross-event volsnap/NTFS check; the source then pushes the composite hint into
the already-drained accumulator (`push_hint(&mut acc, ...)` after
`acc.into_values()` moved it), so that push can never reach the returned
vector — `_acc2` below reproduces the dead computation. -/
def generate_hints (env : String → Option String)
    (events : List EventItem) : List NoviceHint :=
  let acc := (hintTrace env events).foldl push_hint []
  let out := acc.map finalizeProb
  let _acc2 :=
    if hasVolsnapAbort events ∧ hasNtfs55 events then
      push_hint acc
        ⟨"Storage", "high", "Shadow copies aborted and NTFS corruption detected (sequence)", none⟩
    else acc
  sortCountDesc out

/-! ## `perf.rs`: `compute_performance_metrics` -/

/-- The `add` closure of `compute_performance_metrics`: a signal contributes
`weight * count` to the score, and its name to the signal list, only when at
least one event matched. -/
def addSig (st : Nat × List (String × Nat)) (name : String) (weight count : Nat) :
    Nat × List (String × Nat) :=
  if 0 < count then (st.1 + weight * count, st.2 ++ [(name, weight)]) else st

def isDiskBadBlock (e : EventItem) : Bool := e.provider = "Disk" ∧ e.event_id = 7

def isDiskCtlErr (e : EventItem) : Bool :=
  e.provider = "Disk" ∧ (e.event_id = 11 ∨ e.event_id = 51 ∨ e.event_id = 157)

def isNtfsCorruption (e : EventItem) : Bool :=
  e.provider = "Microsoft-Windows-Ntfs" ∧
    (e.event_id = 55 ∨ e.event_id = 57 ∨ e.event_id = 140)

def isStorportReset (e : EventItem) : Bool :=
  e.provider = "Storport" ∧ (e.event_id = 129 ∨ e.event_id = 153)

def isWheaMce (e : EventItem) : Bool :=
  e.provider = "Microsoft-Windows-WHEA-Logger" ∧ e.event_id = 18

def isCpuThrottle (e : EventItem) : Bool :=
  e.provider = "Microsoft-Windows-Kernel-Processor-Power" ∧ e.event_id = 37

def isGpuTimeout (e : EventItem) : Bool :=
  (e.provider = "Display" ∧ e.event_id = 4101) ∨ e.provider = "nvlddmkm" ∨
    e.provider = "amdkmdag"

def isDnsFailure (e : EventItem) : Bool :=
  e.provider = "Microsoft-Windows-DNS-Client" ∨ containsStr (lowerStr e.content) "dns"

def isServiceFailure (e : EventItem) : Bool :=
  e.provider = "Service Control Manager" ∨ e.provider = "Microsoft-Windows-Services"

def isDegradedEvent (e : EventItem) : Bool :=
  strStartsWith e.provider "Microsoft-Windows-DiskDiagnostic" ∧
    containsStr e.content "PercentPerformanceDegraded"

def degradedMarker : List Char := "percentperformancedegraded".data

def firstDigitRunVal (cs : List Char) : Nat :=
  digitsVal ((cs.dropWhile (fun c => ¬ isDigitC c)).takeWhile isDigitC)

def degradedSuffix : List Char → Option (List Char)
  | [] => none
  | c :: t =>
    if degradedMarker.isPrefixOf (c :: t) ∧
        ((c :: t).drop degradedMarker.length).any isDigitC then
      some ((c :: t).drop degradedMarker.length)
    else degradedSuffix t

/-- The regex capture `(?i)PercentPerformanceDegraded\D*(\d+)` followed by
`parse::<u8>().unwrap_or(0)`: leftmost occurrence of the marker that has a
digit after it, first digit run after that occurrence, parsed as `u8`
(overflow yields 0).  `none` models "the regex did not match". -/
def degradedCapture (content : String) : Option Nat :=
  (degradedSuffix (lowerStr content).data).map fun suf =>
    let n := firstDigitRunVal suf
    if n < 256 then n else 0

/-- The degraded percentage actually added to the score (0 when the signal is
absent). -/
def degradedOf (events : List EventItem) : Nat :=
  match events.find? isDegradedEvent with
  | some e => (degradedCapture e.content).getD 0
  | none => 0

/-- From `perf.rs`, `compute_performance_metrics`: capped weighted sum of the fixed
signals plus the raw degraded percentage (`u32` arithmetic, far from overflow
for bounded batches, modelled as `Nat`); the score is `min _ 100` at the end. -/
def compute_performance_metrics (events : List EventItem) : Nat × List (String × Nat) :=
  let st : Nat × List (String × Nat) := (0, [])
  let st := addSig st "Disk bad blocks" 30 (events.countP isDiskBadBlock)
  let st := addSig st "Disk/controller errors" 25 (events.countP isDiskCtlErr)
  let st := addSig st "NTFS corruption" 25 (events.countP isNtfsCorruption)
  let st := addSig st "Storport resets/retries" 15 (events.countP isStorportReset)
  let st := addSig st "Hardware machine checks" 35 (events.countP isWheaMce)
  let st := addSig st "CPU frequency limited" 10 (events.countP isCpuThrottle)
  let st := addSig st "GPU driver timeout/reset" 10 (events.countP isGpuTimeout)
  let st := addSig st "DNS failures" 5 (events.countP isDnsFailure)
  let st := addSig st "Service failures" 10 (events.countP isServiceFailure)
  let st :=
    match events.find? isDegradedEvent with
    | some e =>
      match degradedCapture e.content with
      | some v => (st.1 + v, st.2 ++ [("Disk performance degraded", v)])
      | none => st
    | none => st
  (min st.1 100, st.2)

/-! ## `main.rs`: risk grade (lines 1088-1092) -/

/-- The `risk_grade` block of `build_summary_with_files`: base grade from the
score thresholds, then — whenever any high-severity Storage hint exists and
the score is ≥ 40 — the grade is assigned `"High"` outright. -/
def risk_grade (perf_score : Nat) (novice_hints : List NoviceHint) : String :=
  let grade := if 80 ≤ perf_score then "Critical"
               else if 60 ≤ perf_score then "High"
               else if 40 ≤ perf_score then "Medium"
               else "Low"
  if (novice_hints.any fun h => h.category = "Storage" ∧ h.severity = "high") ∧
      40 ≤ perf_score then "High"
  else grade

/-! ## `rules.rs`: declarative rules -/

structure HintRule where
  provider : Option String
  event_id : Option Nat
  contains_any : Option (List String)
  regex : Option String
  category : Option String
  severity : Option String
  message : String
deriving DecidableEq

structure RulesConfig where
  event_patterns : Option (List String)
  file_patterns : Option (List String)
  hint_rules : Option (List HintRule)
deriving DecidableEq

/-- One iteration of the inner loop of `apply_hint_rules`: the provider and
event-id filters (the `continue`s), then substring-OR, then the regex —
`rmatch` is the oracle for `Regex::new(rx).ok()` + `is_match` on the raw
content (`false` covers both a non-compiling pattern and a non-match). -/
def ruleFires (rmatch : String → String → Bool) (r : HintRule) (e : EventItem) : Bool :=
  (match r.provider with
   | some p => decide (e.provider = p)
   | none => true) &&
  (match r.event_id with
   | some id => decide (e.event_id = id)
   | none => true) &&
  (let cl := lowerStr e.content
   let m1 : Bool := match r.contains_any with
     | some list => list.any fun k => containsStr cl (lowerStr k)
     | none => false
   m1 || (match r.regex with
          | some rx => rmatch rx e.content
          | none => false))

/-- The synthetic hint a declarative rule emits per matching event. -/
def mkRuleHint (r : HintRule) : NoviceHint :=
  { category := r.category.getD "General",
    severity := r.severity.getD "medium",
    message := r.message, evidence := [], count := 1, probability := 50 }

/-- From `rules.rs`, `apply_hint_rules`: for each rule, one hint per matching
event, appended in loop order. -/
def apply_hint_rules (rmatch : String → String → Bool) (events : List EventItem)
    (cfg : RulesConfig) : List NoviceHint :=
  match cfg.hint_rules with
  | none => []
  | some rules =>
    rules.flatMap fun r => (events.filter (ruleFires rmatch r)).map fun _ => mkRuleHint r

/-- Lines 1077-1081 of `main.rs`: built-in hints from `generate_hints`, then
the declarative-rule hints appended (`extend`) without merging into the
dedup-by-key accumulator. -/
def combined_hints (env : String → Option String) (rmatch : String → String → Bool)
    (events : List EventItem) (rules_cfg : Option RulesConfig) : List NoviceHint :=
  let novice := generate_hints env events
  match rules_cfg with
  | some cfg =>
    let extra := apply_hint_rules rmatch events cfg
    if extra.isEmpty then novice else novice ++ extra
  | none => novice

/-! ## Concrete inputs used by witnesses and counterexamples -/

/-- An empty process environment. -/
def envNone : String → Option String := fun _ => none

/-- An environment carrying one BDF override entry. -/
def envOverride : String → Option String :=
  fun k => if k = "WINDOCTOR_BDF_HINTS" then some "1:0:0=Custom label" else none

/-- A regex oracle under which no declarative-rule regex matches. -/
def rmFalse : String → String → Bool := fun _ _ => false

def t0 : UtcTime := ⟨2025, 1, 1, 0, 0, 0, 0, 0⟩

/-- A `Disk` event-id-7 record with empty content. -/
def eD7 : EventItem := ⟨t0, 2, "System", "Disk", 7, "", none⟩

/-- A `volsnap` record whose content contains "aborted". -/
def eVolsnap : EventItem :=
  ⟨t0, 3, "System", "volsnap", 25, "Shadow copies of volume C: were aborted", none⟩

/-- An NTFS event-id-55 record. -/
def eNtfs55 : EventItem := ⟨t0, 2, "System", "Microsoft-Windows-Ntfs", 55, "", none⟩

/-- A record triggering two cross-cutting hints of equal count. -/
def eC6 : EventItem := ⟨t0, 2, "System", "X", 0, "dns reset", none⟩

def eDeg50 : EventItem :=
  ⟨t0, 2, "System", "Microsoft-Windows-DiskDiagnostic", 0, "PercentPerformanceDegraded 50", none⟩

def eDeg10 : EventItem :=
  ⟨t0, 2, "System", "Microsoft-Windows-DiskDiagnostic", 0, "PercentPerformanceDegraded 10", none⟩

def threeDisk : List EventItem := [eD7, eD7, eD7]

/-- An event record whose `Level` field carries the parseable out-of-range
value 5 and whose `TimeCreated`/`Provider` tags are self-closing. -/
def xmlC7 : String :=
  "<Event><System><Provider Name=\"Disk\"/><EventID>7</EventID><Level>5</Level><TimeCreated SystemTime=\"2024-01-02T03:04:05Z\"/><Channel>System</Channel></System></Event>"

/-- A blob holding nothing but a self-closing `TimeCreated` tag. -/
def xmlC8 : String := "<TimeCreated SystemTime=\"2024-01-02T03:04:05Z\"/>"

def tC8 : UtcTime := ⟨2024, 1, 2, 3, 4, 5, 0, 0⟩

/-- The hint `generate_hints` produces for a single `eD7`. -/
def d7hint : NoviceHint := ⟨"Storage", "high", "Bad block detected on disk", [], 1, 75⟩

/-- A declarative rule whose key collides with the built-in NTFS-55 hint. -/
def ruleDup : HintRule :=
  ⟨some "Microsoft-Windows-Ntfs", some 55, some [""], none, some "Storage", some "high",
    "File system corruption detected (NTFS)"⟩

def cfgDup : RulesConfig := ⟨none, none, some [ruleDup]⟩

/-- The canonical event `parse_event_xml` produces for `xmlC7`. -/
def itemC7 : EventItem :=
  ⟨⟨2024, 1, 2, 3, 4, 5, 0, 0⟩, 5, "System", "Disk", 7, xmlC7, none⟩

/-- The hint `ruleDup` emits for `eNtfs55`. -/
def ruleHintDup : NoviceHint :=
  ⟨"Storage", "high", "File system corruption detected (NTFS)", [], 1, 50⟩

/-! ## Trace vocabulary for the accumulator theorems -/

/-- The evidence a `push_hint` call can actually store: present and
non-empty. -/
def pushEvNE (p : Push) : Option String :=
  match p.evidence with
  | some ev => if ev = "" then none else some ev
  | none => none

/-- Number of `push_hint` calls for a key in a trace (= number of
contributing matches). -/
def countKey (tr : List Push) (k : HKey) : Nat :=
  (tr.filter fun p => decide (pushKey p = k)).length

/-- All non-empty evidence strings offered for a key, in call order. -/
def evAll (tr : List Push) (k : HKey) : List String :=
  (tr.filter fun p => decide (pushKey p = k)).filterMap pushEvNE

/-- The evidence a key's hint ends up with: the first ≤ 3 non-empty strings
offered (append happens only while fewer than 3 are stored). -/
def evKey (tr : List Push) (k : HKey) : List String := (evAll tr k).take 3

/-- The probability formula exactly as the specification states it:
`clamp(base + count-bump + evidence-bump, 5, 95)` over a hint's own fields. -/
def specProbability (h : NoviceHint) : Nat :=
  let base := if h.severity = "high" then 75 else if h.severity = "medium" then 50 else 25
  let bump := if 5 ≤ h.count then 15 else if 3 ≤ h.count then 10
              else if 2 ≤ h.count then 5 else 0
  let evb := if h.evidence.isEmpty then 0 else 5
  min (max (base + bump + evb) 5) 95

instance : IsTotal NoviceHint (fun a b => b.count ≤ a.count) :=
  ⟨fun a b => Nat.le_total b.count a.count⟩

instance : IsTrans NoviceHint (fun a b => b.count ≤ a.count) :=
  ⟨fun _ _ _ h1 h2 => le_trans h2 h1⟩

/-! ## Helper lemmas about the accumulator -/

theorem hintKey_applyPush (h : NoviceHint) (p : Push) :
    hintKey (applyPush h p) = hintKey h := by
  unfold applyPush
  cases p.evidence with
  | none => rfl
  | some ev => dsimp only; split <;> rfl

theorem count_applyPush (h : NoviceHint) (p : Push) :
    (applyPush h p).count = h.count + 1 := by
  unfold applyPush
  cases p.evidence with
  | none => rfl
  | some ev => dsimp only; split <;> rfl

theorem probability_applyPush (h : NoviceHint) (p : Push) :
    (applyPush h p).probability = h.probability := by
  unfold applyPush
  cases p.evidence with
  | none => rfl
  | some ev => dsimp only; split <;> rfl

theorem evidence_applyPush (h : NoviceHint) (p : Push) :
    (applyPush h p).evidence =
      if h.evidence.length < 3 then h.evidence ++ (pushEvNE p).toList
      else h.evidence := by
  unfold applyPush pushEvNE
  cases p.evidence with
  | none => dsimp only; split <;> simp
  | some ev =>
    dsimp only
    by_cases he : ev = "" <;> by_cases hl : h.evidence.length < 3 <;>
      simp [he, hl]

theorem countKey_append (tr : List Push) (p : Push) (k : HKey) :
    countKey (tr ++ [p]) k = countKey tr k + if pushKey p = k then 1 else 0 := by
  unfold countKey
  rw [List.filter_append, List.length_append]
  congr 1
  by_cases hp : pushKey p = k <;> simp [hp]

theorem evAll_append (tr : List Push) (p : Push) (k : HKey) :
    evAll (tr ++ [p]) k
      = evAll tr k ++ (if pushKey p = k then (pushEvNE p).toList else []) := by
  unfold evAll
  rw [List.filter_append, List.filterMap_append]
  congr 1
  by_cases hp : pushKey p = k <;> cases hpe : pushEvNE p <;>
    simp [hp, hpe, Option.toList]

theorem take3_step (E : List String) (o : Option String) :
    (if (E.take 3).length < 3 then E.take 3 ++ o.toList else E.take 3)
      = (E ++ o.toList).take 3 := by
  cases o with
  | none => split <;> simp
  | some x =>
    simp only [Option.toList]
    rcases Nat.lt_or_ge E.length 3 with hE | hE
    · have h1 : E.take 3 = E := List.take_of_length_le (Nat.le_of_lt hE)
      have h2 : (E ++ [x]).take 3 = E ++ [x] :=
        List.take_of_length_le (by rw [List.length_append]; simp; omega)
      rw [h1, h2, if_pos hE]
    · rw [if_neg (by simp [List.length_take]; omega),
        List.take_append_eq_append_take]
      have h0 : 3 - E.length = 0 := by omega
      simp [h0]

/-- The accumulation invariant of one correlation pass: after folding a trace
of `push_hint` calls, each stored hint's `count` is the number of calls for
its key, its evidence is the first ≤ 3 non-empty strings offered for the key,
its probability is still 0, and each pushed key owns exactly one entry. -/
theorem push_hint_fold_spec (tr : List Push) :
    (∀ h ∈ tr.foldl push_hint [], h.count = countKey tr (hintKey h)
        ∧ h.evidence = evKey tr (hintKey h) ∧ h.probability = 0)
  ∧ (∀ k : HKey, ((tr.foldl push_hint []).countP fun h => decide (hintKey h = k))
        = if 0 < countKey tr k then 1 else 0) := by
  induction tr using List.reverseRecOn with
  | nil =>
    refine ⟨?_, ?_⟩
    · intro h hh; simp [List.foldl_nil] at hh
    · intro k; simp [List.foldl_nil, countKey]
  | append_singleton tr p ih =>
    obtain ⟨ihm, ihc⟩ := ih
    have hfold : (tr ++ [p]).foldl push_hint []
        = push_hint (tr.foldl push_hint []) p := by
      rw [List.foldl_append]; rfl
    set acc := tr.foldl push_hint [] with hacc
    have hmem_iff : (pushKey p ∈ acc.map hintKey) ↔ 0 < countKey tr (pushKey p) := by
      constructor
      · intro hm
        by_contra hnot
        have hc := ihc (pushKey p)
        rw [if_neg hnot] at hc
        obtain ⟨h, hh, hkey⟩ := List.mem_map.mp hm
        have hpos : 0 < acc.countP (fun h => decide (hintKey h = pushKey p)) :=
          List.countP_pos_iff.mpr ⟨h, hh, by simp [hkey]⟩
        omega
      · intro hpos
        have hc := ihc (pushKey p)
        rw [if_pos hpos] at hc
        have hpos' : 0 < acc.countP (fun h => decide (hintKey h = pushKey p)) := by omega
        obtain ⟨h, hh, hp'⟩ := List.countP_pos_iff.mp hpos'
        exact List.mem_map.mpr ⟨h, hh, by simpa using hp'⟩
    rw [hfold]
    unfold push_hint
    by_cases hin : pushKey p ∈ acc.map hintKey
    · rw [if_pos hin]
      refine ⟨?_, ?_⟩
      · intro h' hh'
        obtain ⟨h, hh, rfl⟩ := List.mem_map.mp hh'
        obtain ⟨hc, he, hp0⟩ := ihm h hh
        by_cases hk : hintKey h = pushKey p
        · rw [if_pos hk]
          refine ⟨?_, ?_, ?_⟩
          · rw [count_applyPush, hintKey_applyPush, countKey_append, if_pos hk.symm, hc]
          · rw [evidence_applyPush, hintKey_applyPush]
            unfold evKey
            rw [evAll_append, if_pos hk.symm, he]
            unfold evKey
            exact take3_step _ _
          · rw [probability_applyPush, hp0]
        · rw [if_neg hk]
          refine ⟨?_, ?_, ?_⟩
          · rw [countKey_append, if_neg (fun hq => hk hq.symm), Nat.add_zero, hc]
          · unfold evKey
            rw [evAll_append, if_neg (fun hq => hk hq.symm), List.append_nil, he]
            rfl
          · exact hp0
      · intro k
        rw [List.countP_map]
        have hcongr : acc.countP ((fun h => decide (hintKey h = k)) ∘
            (fun h => if hintKey h = pushKey p then applyPush h p else h))
            = acc.countP (fun h => decide (hintKey h = k)) := by
          apply List.countP_congr
          intro a _
          by_cases hk : hintKey a = pushKey p <;>
            simp [Function.comp, hk, hintKey_applyPush]
        rw [hcongr, ihc k]
        by_cases hk2 : pushKey p = k
        · subst hk2
          have hpos := hmem_iff.mp hin
          rw [countKey_append, if_pos rfl, if_pos hpos, if_pos (by omega)]
        · rw [countKey_append, if_neg hk2, Nat.add_zero]
    · rw [if_neg hin]
      have h0 : countKey tr (pushKey p) = 0 :=
        Nat.eq_zero_of_not_pos (fun hpos => hin (hmem_iff.mpr hpos))
      have hev0 : evAll tr (pushKey p) = [] := by
        unfold countKey at h0
        unfold evAll
        rw [List.length_eq_zero.mp h0]
        rfl
      refine ⟨?_, ?_⟩
      · intro h' hh'
        rcases List.mem_append.mp hh' with hh | hh
        · have hkne : hintKey h' ≠ pushKey p :=
            fun heq => hin (List.mem_map.mpr ⟨h', hh, heq⟩)
          obtain ⟨hc, he, hp0⟩ := ihm h' hh
          refine ⟨?_, ?_, ?_⟩
          · rw [countKey_append, if_neg (fun hq => hkne hq.symm), Nat.add_zero, hc]
          · unfold evKey
            rw [evAll_append, if_neg (fun hq => hkne hq.symm), List.append_nil, he]
            rfl
          · exact hp0
        · have hh' : h' = applyPush (freshHint p) p := List.mem_singleton.mp hh
          subst hh'
          have hkey : hintKey (applyPush (freshHint p) p) = pushKey p := by
            rw [hintKey_applyPush]; rfl
          refine ⟨?_, ?_, ?_⟩
          · rw [count_applyPush, hkey, countKey_append, if_pos rfl, h0]
            rfl
          · rw [evidence_applyPush, hkey]
            unfold evKey
            rw [evAll_append, if_pos rfl, hev0]
            show (if ([] : List String).length < 3 then [] ++ (pushEvNE p).toList
                else []) = _
            cases pushEvNE p <;> simp
          · rw [probability_applyPush]; rfl
      · intro k
        rw [List.countP_append]
        by_cases hk2 : pushKey p = k
        · subst hk2
          have hc := ihc (pushKey p)
          rw [if_neg (by omega : ¬ 0 < countKey tr (pushKey p))] at hc
          rw [hc, countKey_append, if_pos rfl, h0]
          have hone : List.countP (fun h => decide (hintKey h = pushKey p))
              [applyPush (freshHint p) p] = 1 := by
            simp [List.countP_cons, hintKey_applyPush]
            rfl
          rw [hone]
          simp
        · rw [countKey_append, if_neg hk2, Nat.add_zero, ihc k]
          have hzero : List.countP (fun h => decide (hintKey h = k))
              [applyPush (freshHint p) p] = 0 := by
            have hkey : hintKey (applyPush (freshHint p) p) = pushKey p := by
              rw [hintKey_applyPush]; rfl
            simp [List.countP_cons, hkey, hk2]
          rw [hzero, Nat.add_zero]

theorem generate_hints_eq (env : String → Option String) (events : List EventItem) :
    generate_hints env events
      = sortCountDesc (((hintTrace env events).foldl push_hint []).map finalizeProb) := rfl

theorem generate_hints_perm (env : String → Option String) (events : List EventItem) :
    (generate_hints env events).Perm
      (((hintTrace env events).foldl push_hint []).map finalizeProb) := by
  rw [generate_hints_eq]
  unfold sortCountDesc
  exact List.perm_insertionSort _ _

theorem finalizeProb_probability_eq (h : NoviceHint) :
    (finalizeProb h).probability =
      min (max ((if h.severity = "high" then 75 else if h.severity = "medium" then 50 else 25)
        + (if 5 ≤ h.count then 15 else if 3 ≤ h.count then 10
           else if 2 ≤ h.count then 5 else 0)
        + (if h.evidence.isEmpty then 0 else 5)) 5) 95 := by
  unfold finalizeProb
  dsimp only
  have hb : (if h.severity = "high" then 75 else if h.severity = "medium" then 50 else 25)
      ≤ 75 := by
    split
    · omega
    · split <;> omega
  have hc : (if 5 ≤ h.count then 15 else if 3 ≤ h.count then 10
      else if 2 ≤ h.count then 5 else 0) ≤ 15 := by
    split
    · omega
    · split
      · omega
      · split <;> omega
  have he : (if h.evidence.isEmpty then 0 else 5) ≤ 5 := by split <;> omega
  omega

/-- Claim C3: in the list returned by `generate_hints`, every
(category, severity, message) key has exactly one hint; its count equals the
number of `push_hint` calls for that key during the pass, and its evidence is
the list of non-empty evidence strings offered while fewer than 3 were
stored, in first-come order — in particular of length ≤ 3. -/
theorem generate_hints_c3_dedup (env : String → Option String) (events : List EventItem) :
    (∀ h ∈ generate_hints env events,
        h.count = countKey (hintTrace env events) (hintKey h)
      ∧ h.evidence = evKey (hintTrace env events) (hintKey h)
      ∧ h.evidence.length ≤ 3)
  ∧ (∀ k : HKey, ((generate_hints env events).countP fun h => decide (hintKey h = k))
      = if 0 < countKey (hintTrace env events) k then 1 else 0) := by
  obtain ⟨hm, hc⟩ := push_hint_fold_spec (hintTrace env events)
  have hperm := generate_hints_perm env events
  refine ⟨?_, ?_⟩
  · intro h hh
    obtain ⟨h0, hh0, rfl⟩ := List.mem_map.mp (hperm.mem_iff.mp hh)
    obtain ⟨hc0, he0, _⟩ := hm h0 hh0
    have hkeq : hintKey (finalizeProb h0) = hintKey h0 := rfl
    have hceq : (finalizeProb h0).count = h0.count := rfl
    have heeq : (finalizeProb h0).evidence = h0.evidence := rfl
    refine ⟨?_, ?_, ?_⟩
    · rw [hceq, hkeq, hc0]
    · rw [heeq, hkeq, he0]
    · rw [heeq, he0]
      unfold evKey
      exact List.length_take_le _ _
  · intro k
    rw [hperm.countP_eq, List.countP_map]
    have hcg : (((hintTrace env events).foldl push_hint []).countP
        ((fun h => decide (hintKey h = k)) ∘ finalizeProb))
        = ((hintTrace env events).foldl push_hint []).countP
            (fun h => decide (hintKey h = k)) := by
      apply List.countP_congr
      intro a _
      rfl
    rw [hcg, hc k]

/-- Claim C4: every returned hint's probability equals the clamped formula
`clamp(base + count-bump + evidence-bump, 5, 95)` over its own severity,
count and evidence, and therefore lies in [5, 95]. -/
theorem generate_hints_c4_probability (env : String → Option String)
    (events : List EventItem) :
    ∀ h ∈ generate_hints env events,
      h.probability = specProbability h ∧ 5 ≤ h.probability ∧ h.probability ≤ 95 := by
  intro h hh
  have hperm := generate_hints_perm env events
  obtain ⟨h0, hh0, rfl⟩ := List.mem_map.mp (hperm.mem_iff.mp hh)
  have heq := finalizeProb_probability_eq h0
  refine ⟨?_, ?_, ?_⟩
  · rw [heq]
    rfl
  · rw [heq]
    omega
  · rw [heq]
    omega

/-- Claim C6 (amended): the returned hint list is sorted by count descending
(stable sort, no secondary key). -/
theorem generate_hints_c6_sorted (env : String → Option String)
    (events : List EventItem) :
    List.Pairwise (fun a b => b.count ≤ a.count) (generate_hints env events) := by
  rw [generate_hints_eq]
  unfold sortCountDesc
  exact List.sorted_insertionSort _ _

theorem addSig_fst (st : Nat × List (String × Nat)) (name : String) (w c : Nat) :
    (addSig st name w c).1 = st.1 + w * c := by
  unfold addSig
  split
  · rfl
  · have hc : c = 0 := by omega
    simp [hc]

theorem perf_score_eq (events : List EventItem) :
    (compute_performance_metrics events).1
      = min (30 * events.countP isDiskBadBlock + 25 * events.countP isDiskCtlErr
          + 25 * events.countP isNtfsCorruption + 15 * events.countP isStorportReset
          + 35 * events.countP isWheaMce + 10 * events.countP isCpuThrottle
          + 10 * events.countP isGpuTimeout + 5 * events.countP isDnsFailure
          + 10 * events.countP isServiceFailure + degradedOf events) 100 := by
  unfold compute_performance_metrics degradedOf
  cases hf : events.find? isDegradedEvent with
  | none =>
    simp only [addSig_fst]
    omega
  | some e =>
    cases hd : degradedCapture e.content <;>
      simp only [hd, addSig_fst, Option.getD_none, Option.getD_some] <;> omega

/-- Claim C5 (amended): the performance score never exceeds 100, and it is
monotone in the nine fixed signals' matching-event counts *provided* the
disk-degraded-percent contribution (a raw parsed percentage taken from the
first matching event, not a weighted count) does not decrease. -/
theorem perf_c5_monotone_with_degraded :
    (∀ events : List EventItem, (compute_performance_metrics events).1 ≤ 100)
  ∧ (∀ E1 E2 : List EventItem,
      E1.countP isDiskBadBlock ≤ E2.countP isDiskBadBlock →
      E1.countP isDiskCtlErr ≤ E2.countP isDiskCtlErr →
      E1.countP isNtfsCorruption ≤ E2.countP isNtfsCorruption →
      E1.countP isStorportReset ≤ E2.countP isStorportReset →
      E1.countP isWheaMce ≤ E2.countP isWheaMce →
      E1.countP isCpuThrottle ≤ E2.countP isCpuThrottle →
      E1.countP isGpuTimeout ≤ E2.countP isGpuTimeout →
      E1.countP isDnsFailure ≤ E2.countP isDnsFailure →
      E1.countP isServiceFailure ≤ E2.countP isServiceFailure →
      degradedOf E1 ≤ degradedOf E2 →
      (compute_performance_metrics E1).1 ≤ (compute_performance_metrics E2).1) := by
  constructor
  · intro events
    rw [perf_score_eq]
    exact Nat.min_le_right _ _
  · intro E1 E2 h1 h2 h3 h4 h5 h6 h7 h8 h9 hd
    rw [perf_score_eq, perf_score_eq]
    have hmul : ∀ w a b : Nat, a ≤ b → w * a ≤ w * b :=
      fun w a b h => Nat.mul_le_mul_left w h
    have := hmul 30 _ _ h1
    have := hmul 25 _ _ h2
    have := hmul 25 _ _ h3
    have := hmul 15 _ _ h4
    have := hmul 35 _ _ h5
    have := hmul 10 _ _ h6
    have := hmul 10 _ _ h7
    have := hmul 5 _ _ h8
    have := hmul 10 _ _ h9
    omega

theorem parseUInt_lt (bound : Nat) (s : String) (n : Nat)
    (h : parseUInt bound s = some n) : n < bound := by
  unfold parseUInt at h
  split at h
  · rename_i hcond
    cases h
    exact hcond.2.2
  · cases h

theorem qxTimeAttrs_level : ∀ (attrs : List (String × String)) (st st2 : QxState),
    qxTimeAttrs st attrs = some st2 → st2.level? = st.level? := by
  intro attrs
  induction attrs with
  | nil =>
    intro st st2 h
    cases h
    rfl
  | cons kv rest ih =>
    intro st st2 h
    unfold qxTimeAttrs at h
    split at h
    · split at h
      · cases h
      · rename_i v' _
        have := ih _ _ h
        rw [this]
        split <;> rfl
    · exact ih _ _ h

theorem qxProviderAttrs_level : ∀ (attrs : List (String × String)) (st st2 : QxState),
    qxProviderAttrs st attrs = some st2 → st2.level? = st.level? := by
  intro attrs
  induction attrs with
  | nil =>
    intro st st2 h
    cases h
    rfl
  | cons kv rest ih =>
    intro st st2 h
    unfold qxProviderAttrs at h
    split at h
    · split at h
      · cases h
      · rename_i v' _
        rw [ih _ _ h]
    · exact ih _ _ h

/-- The `Text` arm can only store a `Level` that passed `parse::<u8>()`. -/
theorem qxTextStep_level_bound (st : QxState) (s : String)
    (hst : ∀ n, st.level? = some n → n < 256) :
    ∀ n, (qxTextStep st s).level? = some n → n < 256 := by
  unfold qxTextStep
  split
  · split
    · rename_i m hm
      intro n hn
      cases hn
      exact parseUInt_lt _ _ _ hm
    · exact hst
  · split
    · split <;> exact hst
    · split <;> exact hst

/-- Along the `quick-xml` loop, any stored severity level came from a
successful `parse::<u8>()`, hence is < 256. -/
theorem qxLoop_level_bound : ∀ (toks : List XmlTok) (st st' : QxState),
    (∀ n, st.level? = some n → n < 256) → qxLoop toks st = some st' →
    (∀ n, st'.level? = some n → n < 256) := by
  intro toks
  induction toks with
  | nil =>
    intro st st' hst h
    cases h
    exact hst
  | cons t ts ih =>
    intro st st' hst h
    cases t with
    | err => exact absurd h (by simp [qxLoop])
    | start name attrs =>
      rw [show qxLoop (XmlTok.start name attrs :: ts) st
          = (if name = "TimeCreated" then
               match qxTimeAttrs { st with cur := name } attrs with
               | none => none
               | some st2 => qxLoop ts st2
             else if name = "Provider" then
               match qxProviderAttrs { st with cur := name } attrs with
               | none => none
               | some st2 => qxLoop ts st2
             else qxLoop ts { st with cur := name }) from rfl] at h
      split at h
      · split at h
        · cases h
        · rename_i st2 hta
          refine ih _ _ ?_ h
          rw [qxTimeAttrs_level _ _ _ hta]
          exact hst
      · split at h
        · split at h
          · cases h
          · rename_i st2 hpa
            refine ih _ _ ?_ h
            rw [qxProviderAttrs_level _ _ _ hpa]
            exact hst
        · refine ih _ _ ?_ h
          exact hst
    | text s =>
      refine ih _ _ ?_ h
      exact qxTextStep_level_bound st s hst
    | endTag name => exact ih _ _ hst h
    | emptyTag name attrs => exact ih _ _ hst h
    | other => exact ih _ _ hst h

theorem fallbackLevel_lt (xml : String) : fallbackLevel xml < 256 := by
  unfold fallbackLevel
  cases hb : (extract_between xml "<Level>" "</Level>").bind (parseUInt 256) with
  | none => simp
  | some n =>
    simp only [Option.getD_some]
    obtain ⟨str, _, hp⟩ := Option.bind_eq_some.mp hb
    exact parseUInt_lt _ _ _ hp

theorem parse_event_xml_qx_level_bound (xml ch : String) (item : EventItem)
    (h : parse_event_xml_qx xml ch = some item) : item.level < 256 := by
  unfold parse_event_xml_qx at h
  cases hq : qxLoop (tokenize xml) ⟨none, none, "", none, "", ""⟩ with
  | none => rw [hq] at h; cases h
  | some st =>
    rw [hq] at h
    dsimp only at h
    cases ht : st.time? with
    | none => rw [ht] at h; cases h
    | some time =>
      rw [ht] at h
      cases h
      have hb := qxLoop_level_bound _ _ _ (fun n hn => by simp at hn) hq
      cases hl : st.level? with
      | none => simp [hl]
      | some n =>
        simp only [hl, Option.getD_some]
        exact hb n hl

/-- Claim C7 (amended): every canonical event the Normalizer produces has a
level in the `u8` range 0-255 — missing or unparseable `Level` defaults to 0,
but a parseable value outside 1-4 (such as 5) is stored unchanged, not mapped
into `{0..4}`. -/
theorem parse_event_xml_c7_level_u8 : ∀ (xml ch : String) (item : EventItem),
    parse_event_xml xml ch = some item → item.level < 256 := by
  intro xml ch item h
  unfold parse_event_xml at h
  cases hqx : parse_event_xml_qx xml ch with
  | some it =>
    rw [hqx] at h
    cases h
    exact parse_event_xml_qx_level_bound xml ch _ hqx
  | none =>
    rw [hqx] at h
    cases hft : fallbackTime xml with
    | none => rw [hft] at h; cases h
    | some time =>
      rw [hft] at h
      cases h
      exact fallbackLevel_lt xml

theorem fallbackTime_eq_none (xml : String) :
    fallbackTime xml = none ↔
      ((extract_attr xml "TimeCreated" "SystemTime").bind parse_system_time = none
       ∧ (extract_between xml "<TimeCreated SystemTime=\"" "\"").bind parse_system_time
           = none) := by
  unfold fallbackTime
  cases ha : (extract_attr xml "TimeCreated" "SystemTime").bind parse_system_time <;>
    simp [ha]

/-- Claim C8: the Normalizer returns `none` exactly when the strict pass
yields nothing and neither fallback extraction finds a string that
`parse_system_time` accepts; and whenever a fallback creation time is found,
it succeeds with all non-time fields defaulted (never a failure). -/
theorem parse_event_xml_c8_none_iff (xml ch : String) :
    ((parse_event_xml xml ch = none) ↔
      (parse_event_xml_qx xml ch = none
       ∧ (extract_attr xml "TimeCreated" "SystemTime").bind parse_system_time = none
       ∧ (extract_between xml "<TimeCreated SystemTime=\"" "\"").bind parse_system_time
           = none))
  ∧ (∀ t : UtcTime, parse_event_xml_qx xml ch = none →
      fallbackTime xml = some t →
      parse_event_xml xml ch = some
        { time := t, level := fallbackLevel xml,
          provider := (extract_attr xml "Provider" "Name").getD "",
          event_id := fallbackEventId xml,
          content := (extract_between xml "<EventData>" "</EventData>").getD xml,
          channel := (extract_between xml "<Channel>" "</Channel>").getD ch,
          raw_xml := none }) := by
  constructor
  · cases hqx : parse_event_xml_qx xml ch with
    | some item =>
      constructor
      · intro h
        unfold parse_event_xml at h
        rw [hqx] at h
        cases h
      · rintro ⟨h1, -, -⟩
        cases h1
    | none =>
      cases hft : fallbackTime xml with
      | none =>
        constructor
        · intro _
          exact ⟨rfl, (fallbackTime_eq_none xml).mp hft⟩
        · intro _
          unfold parse_event_xml
          rw [hqx, hft]
      | some time =>
        constructor
        · intro h
          unfold parse_event_xml at h
          rw [hqx, hft] at h
          cases h
        · rintro ⟨-, h1, h2⟩
          rw [(fallbackTime_eq_none xml).mpr ⟨h1, h2⟩] at hft
          cases hft
  · intro t hqx hft
    unfold parse_event_xml
    rw [hqx, hft]

/-- Claim C9 (amended): an exact `(bus,dev,func)` override match always wins
over the heuristic, and with no override table in the environment the result
is exactly the `classify_bdf` heuristic — but the override table is read from
the process environment (`WINDOCTOR_BDF_HINTS`, then `WINREPORT_BDF_HINTS`),
not supplied by the caller, so the result is a function of the environment as
well as of the `(bus,dev,func)` arguments. -/
theorem classify_bdf_platform_c9_override_wins :
    (∀ (env : String → Option String) (b d f : Option String) (s v : String),
        envSpec env = some s → findOverride s b d f = some v →
        classify_bdf_platform env b d f = some v)
  ∧ (∀ (env : String → Option String) (b d f : Option String),
        envSpec env = none → classify_bdf_platform env b d f = classify_bdf b d f) := by
  constructor
  · intro env b d f s v hs hv
    unfold classify_bdf_platform
    rw [hs]
    dsimp only
    rw [hv]
  · intro env b d f hs
    unfold classify_bdf_platform
    rw [hs]

/-- Claim C10: every declarative-rule hint has count 1, probability 50 and no
evidence; exactly one hint is emitted per (rule, matching event) pair; the
rule hints are appended after the built-in hints without entering the
dedup-by-key accumulator; and on a concrete batch/config the combined list
holds two hints with the same (category, severity, message) key. -/
theorem apply_hint_rules_c10 :
    (∀ (rm : String → String → Bool) (events : List EventItem) (cfg : RulesConfig),
        ∀ h ∈ apply_hint_rules rm events cfg,
          h.count = 1 ∧ h.probability = 50 ∧ h.evidence = [])
  ∧ (∀ (rm : String → String → Bool) (events : List EventItem) (cfg : RulesConfig),
        (apply_hint_rules rm events cfg).length
          = ((cfg.hint_rules.getD []).map
              fun r => (events.filter (ruleFires rm r)).length).sum)
  ∧ (∀ (env : String → Option String) (rm : String → String → Bool)
        (events : List EventItem) (cfg : RulesConfig),
        combined_hints env rm events (some cfg)
          = generate_hints env events ++ apply_hint_rules rm events cfg)
  ∧ ((combined_hints envNone rmFalse [eNtfs55] (some cfgDup)).countP
        (fun h => decide (hintKey h
          = ("Storage", "high", "File system corruption detected (NTFS)"))) = 2) := by
  refine ⟨?_, ?_, ?_, ?_⟩
  · intro rm events cfg h hh
    unfold apply_hint_rules at hh
    cases hr : cfg.hint_rules with
    | none => rw [hr] at hh; cases hh
    | some rules =>
      rw [hr] at hh
      obtain ⟨r, -, hm⟩ := List.mem_flatMap.mp hh
      obtain ⟨-, -, rfl⟩ := List.mem_map.mp hm
      exact ⟨rfl, rfl, rfl⟩
  · intro rm events cfg
    unfold apply_hint_rules
    cases hr : cfg.hint_rules with
    | none => simp
    | some rules =>
      rw [List.length_flatMap]
      simp [Function.comp_def]
  · intro env rm events cfg
    unfold combined_hints
    dsimp only
    by_cases he : (apply_hint_rules rm events cfg).isEmpty
    · rw [if_pos he, List.isEmpty_iff.mp he, List.append_nil]
    · rw [if_neg he]
  · decide

set_option maxRecDepth 20000 in
/-- Claim C1 (code bug): a batch holding a volsnap "aborted" record and an
NTFS event-id-55 record satisfies the cross-event condition, yet the returned
hint list does not contain the fixed composite Storage hint — the source
pushes it into the accumulator only after `acc.into_values()` has already
drained the accumulator into the output vector. -/
theorem generate_hints_c1_missing_composite :
    hasVolsnapAbort [eVolsnap, eNtfs55] = true
  ∧ hasNtfs55 [eVolsnap, eNtfs55] = true
  ∧ (generate_hints envNone [eVolsnap, eNtfs55]).all
      (fun h => h.message
        != "Shadow copies aborted and NTFS corruption detected (sequence)") = true :=
  ⟨by decide, by decide, by decide⟩

set_option maxRecDepth 20000 in
/-- Claim C2 (code bug): three Disk event-id-7 records give score 90 ≥ 80 and
a high-severity Storage hint, yet the override assigns the grade exactly
`"High"`, downgrading the `"Critical"` that the score alone would give. -/
theorem risk_grade_c2_downgrades_critical :
    80 ≤ (compute_performance_metrics threeDisk).1
  ∧ ((generate_hints envNone threeDisk).any
      (fun h => decide (h.category = "Storage" ∧ h.severity = "high")) = true)
  ∧ risk_grade (compute_performance_metrics threeDisk).1
      (generate_hints envNone threeDisk) = "High"
  ∧ ("High" : String) ≠ "Critical" :=
  ⟨by decide, by decide, by decide, by decide⟩

set_option maxRecDepth 20000 in
/-- Claim C5 (counterexample): two one-record batches whose matching-event
count is equal for every signal (all nine weighted signals and the
disk-diagnostic match), yet the second score is strictly below the first —
the degraded-percent signal contributes a raw parsed percentage, not a
count. -/
theorem perf_c5_not_monotone_counterexample :
    [eDeg50].countP isDiskBadBlock = [eDeg10].countP isDiskBadBlock
  ∧ [eDeg50].countP isDiskCtlErr = [eDeg10].countP isDiskCtlErr
  ∧ [eDeg50].countP isNtfsCorruption = [eDeg10].countP isNtfsCorruption
  ∧ [eDeg50].countP isStorportReset = [eDeg10].countP isStorportReset
  ∧ [eDeg50].countP isWheaMce = [eDeg10].countP isWheaMce
  ∧ [eDeg50].countP isCpuThrottle = [eDeg10].countP isCpuThrottle
  ∧ [eDeg50].countP isGpuTimeout = [eDeg10].countP isGpuTimeout
  ∧ [eDeg50].countP isDnsFailure = [eDeg10].countP isDnsFailure
  ∧ [eDeg50].countP isServiceFailure = [eDeg10].countP isServiceFailure
  ∧ [eDeg50].countP isDegradedEvent = [eDeg10].countP isDegradedEvent
  ∧ (compute_performance_metrics [eDeg10]).1
      < (compute_performance_metrics [eDeg50]).1 := by
  decide

theorem perf_c5_monotone_with_degraded_witness :
    (compute_performance_metrics []).1 ≤ (compute_performance_metrics [eD7]).1 :=
  (perf_c5_monotone_with_degraded).2 [] [eD7] (by decide) (by decide) (by decide)
    (by decide) (by decide) (by decide) (by decide) (by decide) (by decide) (by decide)

set_option maxRecDepth 20000 in
/-- Claim C6 (counterexample): a single record yields two hints of equal
count whose output order is Network before General, while (category, message)
ascending would put General first — ties are not broken by (category,
message). -/
theorem generate_hints_c6_tie_order_counterexample :
    (generate_hints envNone [eC6]).map (fun h => h.category) = ["Network", "General"]
  ∧ (generate_hints envNone [eC6]).map (fun h => h.count) = [1, 1]
  ∧ strLt "General" "Network" = true :=
  ⟨by decide, by decide, by decide⟩

set_option maxRecDepth 20000 in
theorem generate_hints_c3_dedup_witness :
    d7hint ∈ generate_hints envNone [eD7]
  ∧ (d7hint.count = countKey (hintTrace envNone [eD7]) (hintKey d7hint)
     ∧ d7hint.evidence = evKey (hintTrace envNone [eD7]) (hintKey d7hint)
     ∧ d7hint.evidence.length ≤ 3) :=
  ⟨by decide, (generate_hints_c3_dedup envNone [eD7]).1 d7hint (by decide)⟩

set_option maxRecDepth 20000 in
theorem generate_hints_c4_probability_witness :
    d7hint ∈ generate_hints envNone [eD7]
  ∧ (d7hint.probability = specProbability d7hint
     ∧ 5 ≤ d7hint.probability ∧ d7hint.probability ≤ 95) :=
  ⟨by decide, generate_hints_c4_probability envNone [eD7] d7hint (by decide)⟩

set_option maxRecDepth 20000 in
/-- Claim C7 (counterexample): the Normalizer stores level 5 — outside
{0,1,2,3,4} — for a record whose `Level` field is `5`. -/
theorem parse_event_xml_c7_level_out_of_range :
    (parse_event_xml xmlC7 "System").map (fun it => it.level) = some 5
  ∧ (5 : Nat) ∉ ([0, 1, 2, 3, 4] : List Nat) :=
  ⟨by decide, by decide⟩

set_option maxRecDepth 20000 in
theorem parse_event_xml_c7_level_u8_witness :
    parse_event_xml xmlC7 "System" = some itemC7 ∧ itemC7.level < 256 :=
  ⟨by decide, parse_event_xml_c7_level_u8 xmlC7 "System" itemC7 (by decide)⟩

set_option maxRecDepth 20000 in
theorem parse_event_xml_c8_none_iff_witness :
    parse_event_xml_qx xmlC8 "Sys" = none
  ∧ fallbackTime xmlC8 = some tC8
  ∧ parse_event_xml xmlC8 "Sys" = some
      { time := tC8, level := fallbackLevel xmlC8,
        provider := (extract_attr xmlC8 "Provider" "Name").getD "",
        event_id := fallbackEventId xmlC8,
        content := (extract_between xmlC8 "<EventData>" "</EventData>").getD xmlC8,
        channel := (extract_between xmlC8 "<Channel>" "</Channel>").getD "Sys",
        raw_xml := none } :=
  ⟨by decide, by decide,
    (parse_event_xml_c8_none_iff xmlC8 "Sys").2 tC8 (by decide) (by decide)⟩

/-- Claim C9 (counterexample): identical `(bus,dev,func)` arguments, two
process environments, two different labels — the core reads the override
table from the environment. -/
theorem classify_bdf_platform_c9_env_dependent :
    classify_bdf_platform envNone (some "1") (some "0") (some "0")
      = some "Likely discrete GPU (PEG root path)"
  ∧ classify_bdf_platform envOverride (some "1") (some "0") (some "0")
      = some "Custom label"
  ∧ classify_bdf_platform envNone (some "1") (some "0") (some "0")
      ≠ classify_bdf_platform envOverride (some "1") (some "0") (some "0") :=
  ⟨by decide, by decide, by decide⟩

theorem classify_bdf_platform_c9_override_wins_witness :
    envSpec envOverride = some "1:0:0=Custom label"
  ∧ findOverride "1:0:0=Custom label" (some "1") (some "0") (some "0")
      = some "Custom label"
  ∧ classify_bdf_platform envOverride (some "1") (some "0") (some "0")
      = some "Custom label" :=
  ⟨by decide, by decide,
    (classify_bdf_platform_c9_override_wins).1 envOverride (some "1") (some "0")
      (some "0") "1:0:0=Custom label" "Custom label" (by decide) (by decide)⟩

set_option maxRecDepth 20000 in
theorem apply_hint_rules_c10_witness :
    ruleHintDup ∈ apply_hint_rules rmFalse [eNtfs55] cfgDup
  ∧ (ruleHintDup.count = 1 ∧ ruleHintDup.probability = 50
     ∧ ruleHintDup.evidence = []) :=
  ⟨by decide, (apply_hint_rules_c10).1 rmFalse [eNtfs55] cfgDup ruleHintDup (by decide)⟩
